import Mathlib

/-!
Shallow embedding of the RFM69 radio driver (Source/rfm69.cxx) and proofs
about its register-level behaviour.

Modelling conventions:
- 8-bit registers and SPI bytes are `Nat` values reduced with `% 256` or
  masked with `&&& 0xFF` exactly where the C code's integer conversions do.
- The SPI transport is observed through an event trace: `xfer2 cmd` is one
  full-duplex two-byte exchange (`rf12_xferCmd`), `xferByte v` one single-byte
  exchange (`rf12_xferByte`), `delayEv ms` a call to `delay`.  `chipSelect` /
  `chipUnselect` have empty bodies in the source and produce no event.
- Values clocked back from the chip, the millisecond clock and `rand()` are
  oracle streams in `Env`, consumed in call order via counters in the state.
- Bounded busy-wait loops of the source are clock-bounded; they are embedded
  with a fuel parameter standing for the iteration bound, and theorems that
  depend on termination assume a strictly advancing clock.
-/

namespace RFM69

/-- One observable action on the SPI bus or the timer. -/
inductive Event where
  | xfer2 (cmd : Nat)
  | xferByte (v : Nat)
  | delayEv (ms : Nat)
  deriving DecidableEq, Repr

/-- Oracle streams: `reads n` is the 16-bit word clocked back by the n-th
`rf12_xferCmd` issued from `readRegister`, `ticks n` the value of the n-th
`HAL_GetTick()` call, `rands n` the n-th `rand()` result. -/
structure Env where
  reads : Nat → Nat
  ticks : Nat → Nat
  rands : Nat → Nat

/-- Driver state: the RFM69 member variables used by the modelled operations,
plus the oracle cursors and the accumulated bus trace. -/
structure St where
  mode : Nat
  highPowerDevice : Bool
  powerLevel : Nat
  rssi : Int
  autoReadRSSI : Bool
  highPowerSettings : Bool
  csmaEnabled : Bool
  rxBuffer : Nat → Nat
  rxBufferLength : Nat
  readIdx : Nat
  tickIdx : Nat
  randIdx : Nat
  trace : List Event

/-- Command word sent for a register write: write flag in the address byte,
value in the data byte (`((reg | 0x80) << 8) | value`). -/
def wcmd (reg val : Nat) : Nat := ((reg ||| 0x80) <<< 8) ||| (val &&& 0xFF)

/-- Command word sent for a register read (`reg << 8`, write flag clear). -/
def rcmd (reg : Nat) : Nat := reg <<< 8

/-- RFM69::readRegister.  Sanity check `reg > 0x7f` returns 0 without any bus
access; otherwise one two-byte exchange whose answer byte is the value. -/
def readRegister (env : Env) (reg : Nat) (s : St) : Nat × St :=
  if 0x7f < reg then (0, s)
  else
    (env.reads s.readIdx % 256,
     { s with readIdx := s.readIdx + 1, trace := s.trace ++ [Event.xfer2 (rcmd reg)] })

/-- RFM69::writeRegister.  Sanity check `reg > 0x7f` silently no-ops;
otherwise one two-byte exchange with the write flag set. -/
def writeRegister (reg val : Nat) (s : St) : St :=
  if 0x7f < reg then s
  else { s with trace := s.trace ++ [Event.xfer2 (wcmd reg val)] }

/-- HAL_GetTick: next value of the millisecond clock stream. -/
def getTick (env : Env) (s : St) : Nat × St :=
  (env.ticks s.tickIdx, { s with tickIdx := s.tickIdx + 1 })

/-- rand(): next value of the random stream. -/
def getRand (env : Env) (s : St) : Nat × St :=
  (env.rands s.randIdx, { s with randIdx := s.randIdx + 1 })

/-- delay(ms): recorded in the trace only. -/
def delayA (ms : Nat) (s : St) : St :=
  { s with trace := s.trace ++ [Event.delayEv ms] }

/-- rf12_xferByte: one single-byte full-duplex exchange (answer byte unused by
all call sites). -/
def xferB (v : Nat) (s : St) : St :=
  { s with trace := s.trace ++ [Event.xferByte (v % 256)] }

/-- RFM69::setHighPowerSettings.  Enabling is forced off on a non-high-power
device; registers 0x5A/0x5C get the boost or the normal values. -/
def setHighPowerSettings (enable : Bool) (s : St) : St :=
  let enable := if enable = true ∧ s.highPowerDevice = false then false else enable
  let s := writeRegister 0x5A (if enable then 0x5D else 0x55) s
  writeRegister 0x5C (if enable then 0x7C else 0x70) s

/-- RFM69::setMode.  No-op when the target equals the current mode or exceeds
RFM69_MODE_RX (= 4); otherwise writes RegOpMode and, on a high power device
entering RX or TX, applies the high-power register side effects. -/
def setMode (mode : Nat) (s : St) : Nat × St :=
  if mode = s.mode ∨ 4 < mode then (s.mode, s)
  else
    let s := writeRegister 0x01 (mode <<< 2) s
    let s :=
      if s.highPowerDevice = true then
        if mode = 4 then
          if s.highPowerSettings = true then setHighPowerSettings false s else s
        else if mode = 3 then
          if s.highPowerSettings = true then setHighPowerSettings true s else s
        else s
      else s
    (mode, { s with mode := mode })

/-- RFM69::setPowerLevel.  Clamps to 31 and updates the 5-bit OutputPower
field of register 0x11, remembering the value in `_powerLevel`. -/
def setPowerLevel (env : Env) (power : Nat) (s : St) : St :=
  let power := if 31 < power then 31 else power
  let p := readRegister env 0x11 s
  let s1 := writeRegister 0x11 ((p.1 &&& 0xE0) ||| power) p.2
  { s1 with powerLevel := power }

/-- RFM69::setPowerDBm.  Range checks, then the vendor band table: PA0 for
normal devices; PA1, PA1+PA2, or PA1+PA2 with high-power boost for the three
high-power bands. -/
def setPowerDBm (dBm : Int) (s : St) : Int × St :=
  if dBm < -18 ∨ 20 < dBm then (-1, s)
  else if s.highPowerDevice = false ∧ 13 < dBm then (-1, s)
  else if s.highPowerDevice = true ∧ dBm < -2 then (-1, s)
  else if s.highPowerDevice = false then
    (0, writeRegister 0x11 (0x80 ||| (dBm + 18).toNat) s)
  else if -2 ≤ dBm ∧ dBm ≤ 13 then
    let s := writeRegister 0x11 (0x40 ||| (dBm + 18).toNat) s
    let s := { s with highPowerSettings := false }
    (0, setHighPowerSettings false s)
  else if 13 < dBm ∧ dBm ≤ 17 then
    let s := writeRegister 0x11 (0x60 ||| (dBm + 14).toNat) s
    let s := { s with highPowerSettings := false }
    (0, setHighPowerSettings false s)
  else
    let s := writeRegister 0x11 (0x60 ||| (dBm + 11).toNat) s
    let s := { s with highPowerSettings := true }
    (0, setHighPowerSettings true s)

/-- RFM69::clearFIFO: write 0x10 to RegIrqFlags2. -/
def clearFIFO (s : St) : St :=
  writeRegister 0x28 0x10 s

/-- Busy-wait pattern `while ((readRegister(reg) & mask) == 0 && (HAL_GetTick() - t0) < timeout);`
used by waitForModeReady (0x27/0x80/100), waitForPacketSent (0x28/0x08/100) and
the RSSI settle waits (0x23/0x02/10).  The register is read first; the clock is
consulted only when the flag is still clear.  `fuel` bounds the iterations. -/
def pollLoop (env : Env) (reg mask timeout t0 : Nat) : Nat → St → St
  | 0, s => s
  | fuel + 1, s =>
    let p := readRegister env reg s
    if p.1 &&& mask ≠ 0 then p.2
    else
      let q := getTick env p.2
      if q.1 - t0 < timeout then pollLoop env reg mask timeout t0 fuel q.2 else q.2

/-- RFM69::waitForModeReady. -/
def waitForModeReady (env : Env) (wf : Nat) (s : St) : St :=
  let p := getTick env s
  pollLoop env 0x27 0x80 100 p.1 wf p.2

/-- RFM69::waitForPacketSent. -/
def waitForPacketSent (env : Env) (wf : Nat) (s : St) : St :=
  let p := getTick env s
  pollLoop env 0x28 0x08 100 p.1 wf p.2

/-- RFM69::readRSSI: `_rssi = -readRegister(0x24) / 2` (C truncating division
of a non-positive value, i.e. `-(v / 2)`). -/
def readRSSI (env : Env) (s : St) : Int × St :=
  let p := readRegister env 0x24 s
  let r : Int := -((p.1 / 2 : Nat) : Int)
  (r, { p.2 with rssi := r })

/-- RFM69::channelFree: RSSI below CSMA_RSSI_THRESHOLD (-85 dBm). -/
def channelFree (env : Env) (s : St) : Bool × St :=
  let p := readRSSI env s
  (decide (p.1 < -85), p.2)

/-- FIFO drain loop of RFM69::_receive:
`while ((readRegister(0x28) & 0x40) && (bytesRead < dataLength))`.
The fuel is the room left in the buffer (`dataLength - bytesRead`); the flag
register is read once more even when the buffer is already full, exactly as
the short-circuit `&&` of the source evaluates it. -/
def drainLoop (env : Env) : Nat → St → List Nat × St
  | 0, s => ([], (readRegister env 0x28 s).2)
  | room + 1, s =>
    let p := readRegister env 0x28 s
    if p.1 &&& 0x40 = 0 then ([], p.2)
    else
      let q := readRegister env 0x00 p.2
      let r := drainLoop env room q.2
      (q.1 :: r.1, r.2)

/-- RFM69::_receive.  Returns the list of bytes drained from the FIFO (empty
when no PayloadReady flag); the caller stores them into its buffer. -/
def recvI (env : Env) (wf : Nat) (dataLength : Nat) (s : St) : List Nat × St :=
  let s0 := if s.mode ≠ 4 then waitForModeReady env wf (setMode 4 s).2 else s
  let s1 := (readRegister env 0x24 s0).2
  let s2 := (readRegister env 0x27 s1).2
  let p3 := readRegister env 0x28 s2
  if p3.1 &&& 0x04 ≠ 0 then
    let s4 := (setMode 1 p3.2).2
    let pb := drainLoop env dataLength s4
    let s5 := if pb.2.autoReadRSSI = true then (readRSSI env pb.2).2 else pb.2
    let s6 := (setMode 4 s5).2
    let p7 := readRegister env 0x3D s6
    let s8 := writeRegister 0x3D (p7.1 ||| 0x04) p7.2
    (pb.1, s8)
  else ([], p3.2)

/-- Store a drained byte list at the front of a byte buffer
(`data[bytesRead] = ...` writes of the source). -/
def overlay (buf : Nat → Nat) (bytes : List Nat) : Nat → Nat :=
  fun i => bytes.getD i (buf i)

/-- RFM69::receive.  The stashed CSMA packet, when present, is returned
without touching the bus: `memcpy(data, _rxBuffer, dataLength)` copies
`dataLength` bytes and the returned count is the stashed length. -/
def receive (env : Env) (wf : Nat) (buf : Nat → Nat) (dataLength : Nat) (s : St) :
    Nat × (Nat → Nat) × St :=
  if 0 < s.rxBufferLength then
    let out := fun i => if i < dataLength then s.rxBuffer i else buf i
    (s.rxBufferLength, out, { s with rxBufferLength := 0 })
  else
    let p := recvI env wf dataLength s
    (p.1.length, overlay buf p.1, p.2)

/-- Ghost observation of how the CSMA wait loop exited. -/
inductive CsmaExit where
  | free
  | timeout
  | fuelOut
  deriving DecidableEq, Repr

/-- One body of the CSMA wait loop: random delay, opportunistic `_receive`
into `_rxBuffer`, and, when a packet arrived, the RX restart write plus the
RSSI settle wait. -/
def csmaBody (env : Env) (wf : Nat) (s : St) : St :=
  let pr := getRand env s
  let sd := delayA (pr.1 % 10) pr.2
  let pb := recvI env wf 64 sd
  if 0 < pb.1.length then
    let sb := { pb.2 with rxBuffer := overlay pb.2.rxBuffer pb.1,
                          rxBufferLength := pb.1.length }
    let pv := readRegister env 0x3D sb
    let sw := writeRegister 0x3D ((pv.1 &&& 0xFB) ||| 0x20) pv.2
    let pt2 := getTick env sw
    pollLoop env 0x23 0x02 10 pt2.1 wf pt2.2
  else pb.2

/-- CSMA/CA wait loop of RFM69::send:
`while (!channelFree() && (HAL_GetTick() - timeEntry) < 500)` iterating
`csmaBody`.  The exit reason is returned as ghost data; `fuelOut` marks fuel
exhaustion, unreachable under an advancing clock. -/
def csmaLoop (env : Env) (wf t0 : Nat) : Nat → St → St × CsmaExit
  | 0, s => (s, CsmaExit.fuelOut)
  | fuel + 1, s =>
    let pf := channelFree env s
    if pf.1 then (pf.2, CsmaExit.free)
    else
      let pt := getTick env pf.2
      if pt.1 - t0 < 500 then csmaLoop env wf t0 fuel (csmaBody env wf pt.2)
      else (pt.2, CsmaExit.timeout)

/-- The `if (true == _csmaEnabled)` block of RFM69::send: restart RX, enter RX
mode, wait for the RSSI sample, run the wait loop, and return to standby. -/
def csmaPart (env : Env) (wf fuel : Nat) (s : St) : St :=
  let pv := readRegister env 0x3D s
  let s1 := writeRegister 0x3D ((pv.1 &&& 0xFB) ||| 0x20) pv.2
  let s2 := (setMode 4 s1).2
  let pt := getTick env s2
  let s3 := pollLoop env 0x23 0x02 10 pt.1 wf pt.2
  let pl := csmaLoop env wf pt.1 fuel s3
  (setMode 1 pl.1).2

/-- RFM69::send.  Standby unless sleeping, clear the FIFO, clamp the length to
RFM69_MAX_PAYLOAD (64), reject empty payloads, optionally arbitrate the
channel, burst the length-prefixed payload into the FIFO, transmit, and
return the clamped byte count. -/
def send (env : Env) (wf fuel : Nat) (data : Nat → Nat) (dataLength : Nat) (s : St) :
    Nat × St :=
  let s0 := if s.mode ≠ 0 then waitForModeReady env wf (setMode 1 s).2 else s
  let s1 := clearFIFO s0
  let len := if 64 < dataLength then 64 else dataLength
  if len = 0 then (0, s1)
  else
    let s2 := if s1.csmaEnabled = true then csmaPart env wf fuel s1 else s1
    let s3 := xferB 0x80 s2
    let s4 := xferB len s3
    let s5 := { s4 with trace := s4.trace ++ (List.range len).map (fun i => Event.xferByte (data i % 256)) }
    let s6 := (setMode 3 s5).2
    let s7 := waitForPacketSent env wf s6
    let s8 := (setMode 1 s7).2
    (len, s8)

/-- RFM69::setAESEncryption.  Enabled exactly for a non-null key of length 16;
always goes to standby first; on enable the 16 key bytes are burst into the
AES key block; the AesOn bit of 0x3D is set or cleared accordingly. -/
def setAESEncryption (env : Env) (aesKey : Option (Nat → Nat)) (keyLength : Nat) (s : St) :
    Bool × St :=
  let enable := aesKey.isSome && keyLength == 16
  let (_, s) := setMode 1 s
  let s :=
    if enable then
      let key := aesKey.getD (fun _ => 0)
      let s := xferB (0x3E ||| 0x80) s
      { s with trace := s.trace ++ (List.range keyLength).map (fun i => Event.xferByte (key i % 256)) }
    else s
  let (v, s) := readRegister env 0x3D s
  let s := writeRegister 0x3D ((v &&& 0xFE) ||| (if enable then 1 else 0)) s
  (enable, s)

/-- Constructor state of `RFM69::RFM69(false)`: standby mode, power level 0,
RSSI sentinel -127, auto RSSI on, CSMA off, empty stash, empty trace. -/
def mkSt : St :=
  { mode := 1, highPowerDevice := false, powerLevel := 0, rssi := -127,
    autoReadRSSI := true, highPowerSettings := false, csmaEnabled := false,
    rxBuffer := fun _ => 0, rxBufferLength := 0,
    readIdx := 0, tickIdx := 0, randIdx := 0, trace := [] }

/-- A fixed concrete environment: the chip always answers 0, the clock gains
1000 per call, `rand()` returns 0. -/
def env0 : Env :=
  { reads := fun _ => 0, ticks := fun n => 1000 * n, rands := fun _ => 0 }

/-- The two register writes performed by `setHighPowerSettings`. -/
def boostEvts (enable : Bool) : List Event :=
  [Event.xfer2 (wcmd 0x5A (if enable then 0x5D else 0x55)),
   Event.xfer2 (wcmd 0x5C (if enable then 0x7C else 0x70))]

lemma lor_and_self (x y : Nat) : (x ||| y) &&& y = y := by
  apply Nat.eq_of_testBit_eq
  intro i
  rw [Nat.testBit_and, Nat.testBit_or]
  cases x.testBit i <;> cases y.testBit i <;> rfl

lemma and_128_eq_zero {x : Nat} (h : x ≤ 127) : x &&& 128 = 0 := by
  apply Nat.eq_of_testBit_eq
  intro i
  rw [Nat.testBit_and, Nat.zero_testBit]
  rcases eq_or_ne i 7 with rfl | hi
  · rw [Nat.testBit_lt_two_pow (show x < 2 ^ 7 by omega)]
    rfl
  · rw [show (128 : Nat) = 2 ^ 7 from rfl, Nat.testBit_two_pow_of_ne (by omega)]
    exact Bool.and_false _

lemma wcmd_shiftRight (reg val : Nat) : wcmd reg val >>> 8 = reg ||| 0x80 := by
  apply Nat.eq_of_testBit_eq
  intro i
  rw [Nat.testBit_shiftRight]
  unfold wcmd
  rw [Nat.testBit_or, Nat.testBit_shiftLeft]
  have h256 : (256 : Nat) ≤ 2 ^ (8 + i) := by
    calc (256 : Nat) = 2 ^ 8 := rfl
    _ ≤ 2 ^ (8 + i) := Nat.pow_le_pow_right (by omega) (by omega)
  have hlt : val &&& 255 < 2 ^ (8 + i) :=
    lt_of_le_of_lt Nat.and_le_right (lt_of_lt_of_le (by omega) h256)
  rw [Nat.testBit_lt_two_pow hlt]
  simp [Nat.le_add_right, Nat.add_sub_cancel_left]

lemma rcmd_shiftRight (reg : Nat) : rcmd reg >>> 8 = reg :=
  Nat.shiftLeft_shiftRight reg 8

lemma wcmd_lowbyte (reg val : Nat) : wcmd reg val &&& 255 = val &&& 255 := by
  apply Nat.eq_of_testBit_eq
  intro i
  unfold wcmd
  rw [Nat.testBit_and, Nat.testBit_or, Nat.testBit_shiftLeft, Nat.testBit_and]
  by_cases hi : i < 8
  · have h8 : decide (i ≥ 8) = false := by simp; omega
    have h255 : (255 : Nat).testBit i = true := by
      rw [show (255 : Nat) = 2 ^ 8 - 1 from rfl, Nat.testBit_two_pow_sub_one]
      simpa using hi
    rw [h8, h255]
    cases (reg ||| 128).testBit (i - 8) <;> cases val.testBit i <;> rfl
  · have h255 : (255 : Nat).testBit i = false := by
      rw [show (255 : Nat) = 2 ^ 8 - 1 from rfl, Nat.testBit_two_pow_sub_one]
      simpa using hi
    rw [h255]
    simp

lemma low5 (v p : Nat) (hp : p < 32) : ((v &&& 224) ||| p) &&& 31 = p := by
  apply Nat.eq_of_testBit_eq
  intro i
  rw [Nat.testBit_and, Nat.testBit_or, Nat.testBit_and]
  by_cases hi : i < 5
  · have h224 : (224 : Nat).testBit i = false := by interval_cases i <;> decide
    have h31 : (31 : Nat).testBit i = true := by interval_cases i <;> decide
    rw [h224, h31]
    cases v.testBit i <;> cases p.testBit i <;> rfl
  · have hpow : (32 : Nat) ≤ 2 ^ i := by
      calc (32 : Nat) = 2 ^ 5 := rfl
      _ ≤ 2 ^ i := Nat.pow_le_pow_right (by omega) (by omega)
    have h31 : (31 : Nat).testBit i = false :=
      Nat.testBit_lt_two_pow (lt_of_lt_of_le (by omega) hpow)
    have hpb : p.testBit i = false :=
      Nat.testBit_lt_two_pow (lt_of_lt_of_le hp hpow)
    rw [h31, hpb]
    simp

lemma setHighPowerSettings_hp (enable : Bool) (s : St) (hs : s.highPowerDevice = true) :
    setHighPowerSettings enable s = { s with trace := s.trace ++ boostEvts enable } := by
  unfold setHighPowerSettings boostEvts
  rw [if_neg (by simp [hs])]
  simp [writeRegister]

/-- C1: for every dBm accepted by `setPowerDBm` the power-level register write
and the amplifier/boost writes are exactly the vendor band table, and the call
returns 0: normal device (-18..13) writes `0x80 | (dBm+18)` only; high-power
device -2..13 writes `0x40 | (dBm+18)` and the boost-disable pair; 14..17
writes `0x60 | (dBm+14)` and the boost-disable pair; 18..20 writes
`0x60 | (dBm+11)` and the boost-enable pair. -/
theorem setPowerDBm_bands (s : St) (dBm : Int) :
    (s.highPowerDevice = false → -18 ≤ dBm → dBm ≤ 13 →
      setPowerDBm dBm s =
        (0, { s with trace := s.trace ++ [Event.xfer2 (wcmd 0x11 (0x80 ||| (dBm + 18).toNat))] }))
  ∧ (s.highPowerDevice = true → -2 ≤ dBm → dBm ≤ 13 →
      setPowerDBm dBm s =
        (0, { s with highPowerSettings := false,
                     trace := s.trace ++ Event.xfer2 (wcmd 0x11 (0x40 ||| (dBm + 18).toNat)) :: boostEvts false }))
  ∧ (s.highPowerDevice = true → 14 ≤ dBm → dBm ≤ 17 →
      setPowerDBm dBm s =
        (0, { s with highPowerSettings := false,
                     trace := s.trace ++ Event.xfer2 (wcmd 0x11 (0x60 ||| (dBm + 14).toNat)) :: boostEvts false }))
  ∧ (s.highPowerDevice = true → 18 ≤ dBm → dBm ≤ 20 →
      setPowerDBm dBm s =
        (0, { s with highPowerSettings := true,
                     trace := s.trace ++ Event.xfer2 (wcmd 0x11 (0x60 ||| (dBm + 11).toNat)) :: boostEvts true })) := by
  refine ⟨?_, ?_, ?_, ?_⟩
  · intro h1 h2 h3
    unfold setPowerDBm
    rw [if_neg (by omega), if_neg (by rintro ⟨-, h⟩; omega),
      if_neg (by rintro ⟨h, -⟩; rw [h1] at h; cases h), if_pos h1]
    simp [writeRegister]
  · intro h1 h2 h3
    unfold setPowerDBm
    rw [if_neg (by omega), if_neg (by rintro ⟨h, -⟩; rw [h1] at h; cases h),
      if_neg (by rintro ⟨-, h⟩; omega), if_neg (by simp [h1]), if_pos ⟨h2, h3⟩]
    simp [setHighPowerSettings_hp, writeRegister, h1]
  · intro h1 h2 h3
    unfold setPowerDBm
    rw [if_neg (by omega), if_neg (by rintro ⟨h, -⟩; rw [h1] at h; cases h),
      if_neg (by rintro ⟨-, h⟩; omega), if_neg (by simp [h1]),
      if_neg (by rintro ⟨-, h⟩; omega), if_pos ⟨by omega, h3⟩]
    simp [setHighPowerSettings_hp, writeRegister, h1]
  · intro h1 h2 h3
    unfold setPowerDBm
    rw [if_neg (by omega), if_neg (by rintro ⟨h, -⟩; rw [h1] at h; cases h),
      if_neg (by rintro ⟨-, h⟩; omega), if_neg (by simp [h1]),
      if_neg (by rintro ⟨-, h⟩; omega), if_neg (by rintro ⟨-, h⟩; omega)]
    simp [setHighPowerSettings_hp, writeRegister, h1]

/-- Witness for `setPowerDBm_bands`: each band applied at a concrete input
(13 dBm normal; 13, 17 and 20 dBm high power). -/
theorem setPowerDBm_bands_witness :
    (setPowerDBm 13 mkSt =
      (0, { mkSt with trace := [Event.xfer2 (wcmd 0x11 (0x80 ||| ((13 : Int) + 18).toNat))] }))
  ∧ (setPowerDBm 13 { mkSt with highPowerDevice := true } =
      (0, { mkSt with highPowerDevice := true, highPowerSettings := false,
                      trace := Event.xfer2 (wcmd 0x11 (0x40 ||| ((13 : Int) + 18).toNat)) :: boostEvts false }))
  ∧ (setPowerDBm 17 { mkSt with highPowerDevice := true } =
      (0, { mkSt with highPowerDevice := true, highPowerSettings := false,
                      trace := Event.xfer2 (wcmd 0x11 (0x60 ||| ((17 : Int) + 14).toNat)) :: boostEvts false }))
  ∧ (setPowerDBm 20 { mkSt with highPowerDevice := true } =
      (0, { mkSt with highPowerDevice := true, highPowerSettings := true,
                      trace := Event.xfer2 (wcmd 0x11 (0x60 ||| ((20 : Int) + 11).toNat)) :: boostEvts true })) :=
  ⟨(setPowerDBm_bands mkSt 13).1 rfl (by decide) (by decide),
   (setPowerDBm_bands { mkSt with highPowerDevice := true } 13).2.1 rfl (by decide) (by decide),
   (setPowerDBm_bands { mkSt with highPowerDevice := true } 17).2.2.1 rfl (by decide) (by decide),
   (setPowerDBm_bands { mkSt with highPowerDevice := true } 20).2.2.2 rfl (by decide) (by decide)⟩

/-- C2: a dBm outside the applicable bound (below -18 or above 20 for any
device, above 13 for a normal device, below -2 for a high-power device) makes
`setPowerDBm` return -1 with the device state completely unchanged. -/
theorem setPowerDBm_rejects (s : St) (dBm : Int)
    (h : dBm < -18 ∨ 20 < dBm ∨ (s.highPowerDevice = false ∧ 13 < dBm) ∨
         (s.highPowerDevice = true ∧ dBm < -2)) :
    setPowerDBm dBm s = (-1, s) := by
  unfold setPowerDBm
  rcases h with h | h | ⟨h1, h2⟩ | ⟨h1, h2⟩
  · rw [if_pos (Or.inl h)]
  · rw [if_pos (Or.inr h)]
  · by_cases h20 : 20 < dBm
    · rw [if_pos (Or.inr h20)]
    · rw [if_neg (by omega), if_pos ⟨h1, h2⟩]
  · by_cases h18 : dBm < -18
    · rw [if_pos (Or.inl h18)]
    · rw [if_neg (by omega), if_neg (by rintro ⟨h, -⟩; rw [h1] at h; cases h),
        if_pos ⟨h1, h2⟩]

/-- Witness for `setPowerDBm_rejects`: 14 dBm on a normal device and -3 dBm on
a high-power device are both rejected unchanged. -/
theorem setPowerDBm_rejects_witness :
    setPowerDBm 14 mkSt = (-1, mkSt)
  ∧ setPowerDBm (-3) { mkSt with highPowerDevice := true } =
      (-1, { mkSt with highPowerDevice := true }) :=
  ⟨setPowerDBm_rejects mkSt 14 (Or.inr (Or.inr (Or.inl ⟨rfl, by decide⟩))),
   setPowerDBm_rejects { mkSt with highPowerDevice := true } (-3)
     (Or.inr (Or.inr (Or.inr ⟨rfl, by decide⟩)))⟩

/-- C5: for a register address above 0x7F, `readRegister` returns 0 and
`writeRegister` is a no-op, with no bus transaction; for addresses up to 0x7F
each performs exactly one two-byte exchange whose address byte has the write
bit set for writes and clear for reads. -/
theorem registerAccess_bounds (env : Env) (reg val : Nat) (s : St) :
    (0x7f < reg → readRegister env reg s = (0, s) ∧ writeRegister reg val s = s)
  ∧ (reg ≤ 0x7f →
      (readRegister env reg s).2.trace = s.trace ++ [Event.xfer2 (rcmd reg)]
      ∧ writeRegister reg val s = { s with trace := s.trace ++ [Event.xfer2 (wcmd reg val)] }
      ∧ rcmd reg >>> 8 = reg
      ∧ reg &&& 0x80 = 0
      ∧ wcmd reg val >>> 8 = reg ||| 0x80
      ∧ (reg ||| 0x80) &&& 0x80 = 0x80) := by
  constructor
  · intro h
    unfold readRegister writeRegister
    rw [if_pos h, if_pos h]
    exact ⟨rfl, rfl⟩
  · intro h
    refine ⟨?_, ?_, rcmd_shiftRight reg, and_128_eq_zero h, wcmd_shiftRight reg val,
      lor_and_self reg 128⟩
    · unfold readRegister
      rw [if_neg (by omega)]
    · unfold writeRegister
      rw [if_neg (by omega)]

/-- Witness for `registerAccess_bounds`: address 0x90 is rejected, address
0x11 produces the documented single exchanges. -/
theorem registerAccess_bounds_witness :
    (readRegister env0 0x90 mkSt = (0, mkSt) ∧ writeRegister 0x90 0x55 mkSt = mkSt)
  ∧ ((readRegister env0 0x11 mkSt).2.trace = mkSt.trace ++ [Event.xfer2 (rcmd 0x11)]
      ∧ writeRegister 0x11 0x55 mkSt = { mkSt with trace := mkSt.trace ++ [Event.xfer2 (wcmd 0x11 0x55)] }
      ∧ rcmd 0x11 >>> 8 = 0x11
      ∧ 0x11 &&& 0x80 = 0
      ∧ wcmd 0x11 0x55 >>> 8 = 0x11 ||| 0x80
      ∧ (0x11 ||| 0x80) &&& 0x80 = 0x80) :=
  ⟨(registerAccess_bounds env0 0x90 0x55 mkSt).1 (by decide),
   (registerAccess_bounds env0 0x11 0x55 mkSt).2 (by decide)⟩

/-- C6: a transition actually performed by `setMode` on a high-power device
writes the mode register and then: entering RX (4) appends the boost-disable
writes exactly when the policy flag is set, entering TX (3) appends the
boost-enable writes exactly when the flag is set, entering sleep/standby/FS
appends nothing; a non-high-power device never gets amplifier writes. -/
theorem setMode_highPower_effects (mode : Nat) (s : St)
    (hne : mode ≠ s.mode) (hle : mode ≤ 4) :
    (s.highPowerDevice = true →
      (mode = 4 →
        (setMode mode s).2.trace =
          s.trace ++ Event.xfer2 (wcmd 0x01 (mode <<< 2)) ::
            (if s.highPowerSettings = true then boostEvts false else []))
      ∧ (mode = 3 →
        (setMode mode s).2.trace =
          s.trace ++ Event.xfer2 (wcmd 0x01 (mode <<< 2)) ::
            (if s.highPowerSettings = true then boostEvts true else []))
      ∧ (mode ≤ 2 →
        (setMode mode s).2.trace = s.trace ++ [Event.xfer2 (wcmd 0x01 (mode <<< 2))]))
  ∧ (s.highPowerDevice = false →
      (setMode mode s).2.trace = s.trace ++ [Event.xfer2 (wcmd 0x01 (mode <<< 2))]) := by
  have hcond : ¬(mode = s.mode ∨ 4 < mode) := by
    rintro (h | h)
    · exact hne h
    · omega
  constructor
  · intro hhp
    refine ⟨?_, ?_, ?_⟩
    · intro h4
      subst h4
      by_cases hps : s.highPowerSettings = true
      · simp [setMode, hne, writeRegister, hhp, hps, setHighPowerSettings_hp]
      · simp [setMode, hne, writeRegister, hhp, hps]
    · intro h3
      subst h3
      by_cases hps : s.highPowerSettings = true
      · simp [setMode, hne, writeRegister, hhp, hps, setHighPowerSettings_hp]
      · simp [setMode, hne, writeRegister, hhp, hps]
    · intro h2
      interval_cases mode <;>
        simp_all [setMode, writeRegister, hhp]
  · intro hhp
    unfold setMode
    rw [if_neg hcond]
    simp [writeRegister, hhp]

/-- Witness for `setMode_highPower_effects`: a high-power device with the
policy flag set entering RX from standby gets the boost-disable writes. -/
theorem setMode_highPower_effects_witness :
    (setMode 4 { mkSt with highPowerDevice := true, highPowerSettings := true }).2.trace =
      mkSt.trace ++ Event.xfer2 (wcmd 0x01 (4 <<< 2)) ::
        (if ({ mkSt with highPowerDevice := true, highPowerSettings := true } : St).highPowerSettings = true
          then boostEvts false else []) :=
  (((setMode_highPower_effects 4 { mkSt with highPowerDevice := true, highPowerSettings := true }
    (by decide) (by decide)).1 rfl).1) rfl

/-- C7: `setMode` with the current mode or an out-of-range target performs no
write, leaves the state untouched, and returns the current mode. -/
theorem setMode_noop (mode : Nat) (s : St)
    (h : mode = s.mode ∨ 4 < mode) :
    setMode mode s = (s.mode, s) := by
  unfold setMode
  rw [if_pos h]

/-- Witness for `setMode_noop`: the current mode (standby) and the invalid
target 7 are both no-ops on the constructor state. -/
theorem setMode_noop_witness :
    setMode 1 mkSt = (mkSt.mode, mkSt) ∧ setMode 7 mkSt = (mkSt.mode, mkSt) :=
  ⟨setMode_noop 1 mkSt (Or.inl rfl), setMode_noop 7 mkSt (Or.inr (by decide))⟩

/-- State with a stashed two-byte packet whose buffer holds the value 7
everywhere (as the CSMA arbiter would leave it). -/
def st3 : St := { mkSt with rxBufferLength := 2, rxBuffer := fun _ => 7 }

/-- State with a stashed one-byte packet, stale buffer bytes all 7. -/
def st4 : St := { mkSt with rxBufferLength := 1, rxBuffer := fun _ => 7 }

/-- C3 (counterexample): with a stashed packet of length 2 and maxLength 1,
`receive` returns 2 > maxLength, so the returned count is not the number of
bytes copied and exceeds maxLength; and with a stashed length of 1 and
maxLength 2, the caller buffer receives the stale stash byte at index 1,
beyond the stashed length. -/
theorem receive_stashed_cex :
    ¬((receive env0 1 (fun _ => 0) 1 st3).1 ≤ 1)
    ∧ (receive env0 1 (fun _ => 0) 2 st4).2.1 1 = 7 := by
  constructor
  · decide
  · rfl

/-- C3 (amended): with a stashed packet, `receive` answers immediately with no
bus access and clears the stash, but the copy writes exactly `maxLength` bytes
taken from the stash buffer (even past the stashed length) and the returned
count is the stashed length itself, unclamped by `maxLength`. -/
theorem receive_stashed (env : Env) (wf : Nat) (buf : Nat → Nat) (dataLength : Nat)
    (s : St) (h : 0 < s.rxBufferLength) :
    (receive env wf buf dataLength s).1 = s.rxBufferLength
    ∧ (∀ i, (receive env wf buf dataLength s).2.1 i =
        if i < dataLength then s.rxBuffer i else buf i)
    ∧ (receive env wf buf dataLength s).2.2 = { s with rxBufferLength := 0 }
    ∧ (receive env wf buf dataLength s).2.2.trace = s.trace := by
  unfold receive
  rw [if_pos h]
  exact ⟨rfl, fun i => rfl, rfl, rfl⟩

/-- Witness for `receive_stashed` at the stashed state `st3` with maxLength 1. -/
theorem receive_stashed_witness :
    (receive env0 1 (fun _ => 0) 1 st3).1 = st3.rxBufferLength
    ∧ (receive env0 1 (fun _ => 0) 1 st3).2.1 0 = (if 0 < 1 then st3.rxBuffer 0 else 0)
    ∧ (receive env0 1 (fun _ => 0) 1 st3).2.2 = { st3 with rxBufferLength := 0 }
    ∧ (receive env0 1 (fun _ => 0) 1 st3).2.2.trace = st3.trace :=
  ⟨(receive_stashed env0 1 (fun _ => 0) 1 st3 (by decide)).1,
   (receive_stashed env0 1 (fun _ => 0) 1 st3 (by decide)).2.1 0,
   (receive_stashed env0 1 (fun _ => 0) 1 st3 (by decide)).2.2.1,
   (receive_stashed env0 1 (fun _ => 0) 1 st3 (by decide)).2.2.2⟩

/-- C10: `setAESEncryption` returns `true` exactly for a non-null key of
length 16; it always switches to standby first (final mode is standby and the
standby write precedes everything else); on enable the 16 key bytes follow
the AES-block address byte on the bus and the AesOn bit of 0x3D is set, and
otherwise the bit is cleared. -/
theorem setAESEncryption_spec (env : Env) (aesKey : Option (Nat → Nat)) (keyLength : Nat)
    (s : St) :
    (setAESEncryption env aesKey keyLength s).1 = (aesKey.isSome && keyLength == 16)
    ∧ (setAESEncryption env aesKey keyLength s).2.mode = 1
    ∧ (setAESEncryption env aesKey keyLength s).2.trace =
        s.trace
        ++ (if s.mode = 1 then [] else [Event.xfer2 (wcmd 0x01 (1 <<< 2))])
        ++ (if aesKey.isSome && keyLength == 16 then
              Event.xferByte 0xBE ::
                (List.range keyLength).map (fun i => Event.xferByte ((aesKey.getD (fun _ => 0)) i % 256))
            else [])
        ++ [Event.xfer2 (rcmd 0x3D),
            Event.xfer2 (wcmd 0x3D ((env.reads s.readIdx % 256 &&& 0xFE) |||
              (if aesKey.isSome && keyLength == 16 then 1 else 0)))] := by
  by_cases hm : s.mode = 1
  · by_cases he : (aesKey.isSome && keyLength == 16) = true
    · simp [setAESEncryption, setMode, readRegister, writeRegister, xferB, hm, he]
    · simp [setAESEncryption, setMode, readRegister, writeRegister, xferB, hm, he]
  · have hm' : ¬(1 = s.mode) := fun h => hm h.symm
    by_cases he : (aesKey.isSome && keyLength == 16) = true
    · simp [setAESEncryption, setMode, readRegister, writeRegister, xferB, hm', hm, he]
    · simp [setAESEncryption, setMode, readRegister, writeRegister, xferB, hm', hm, he]

/-- The single-byte FIFO exchanges (`rf12_xferByte` payloads) of a trace. -/
def xferBytesOf : List Event → List Nat :=
  List.filterMap (fun e =>
    match e with
    | Event.xferByte v => some v
    | _ => none)

lemma xferBytesOf_append (t u : List Event) :
    xferBytesOf (t ++ u) = xferBytesOf t ++ xferBytesOf u :=
  List.filterMap_append t u _

lemma xfb_readRegister (env : Env) (reg : Nat) (s : St) :
    xferBytesOf (readRegister env reg s).2.trace = xferBytesOf s.trace := by
  unfold readRegister
  split
  · rfl
  · simp [xferBytesOf_append, xferBytesOf]

lemma xfb_writeRegister (reg val : Nat) (s : St) :
    xferBytesOf (writeRegister reg val s).trace = xferBytesOf s.trace := by
  unfold writeRegister
  split
  · rfl
  · simp [xferBytesOf_append, xferBytesOf]

lemma xfb_delayA (ms : Nat) (s : St) :
    xferBytesOf (delayA ms s).trace = xferBytesOf s.trace := by
  simp [delayA, xferBytesOf_append, xferBytesOf]

lemma xfb_setHighPowerSettings (enable : Bool) (s : St) :
    xferBytesOf (setHighPowerSettings enable s).trace = xferBytesOf s.trace := by
  unfold setHighPowerSettings
  rw [xfb_writeRegister, xfb_writeRegister]

lemma xfb_setMode (mode : Nat) (s : St) :
    xferBytesOf (setMode mode s).2.trace = xferBytesOf s.trace := by
  unfold setMode
  split
  · rfl
  · dsimp only
    split
    · split
      · split
        · rw [xfb_setHighPowerSettings, xfb_writeRegister]
        · rw [xfb_writeRegister]
      · split
        · split
          · rw [xfb_setHighPowerSettings, xfb_writeRegister]
          · rw [xfb_writeRegister]
        · rw [xfb_writeRegister]
    · rw [xfb_writeRegister]

lemma xfb_getTick (env : Env) (s : St) :
    xferBytesOf (getTick env s).2.trace = xferBytesOf s.trace := rfl

lemma xfb_pollLoop (env : Env) (reg mask timeout t0 : Nat) :
    ∀ fuel s, xferBytesOf (pollLoop env reg mask timeout t0 fuel s).trace = xferBytesOf s.trace := by
  intro fuel
  induction fuel with
  | zero => intro s; rfl
  | succ n ih =>
    intro s
    unfold pollLoop
    dsimp only
    split
    · exact xfb_readRegister env reg s
    · split
      · rw [ih, xfb_getTick, xfb_readRegister]
      · rw [xfb_getTick, xfb_readRegister]

lemma xfb_waitForModeReady (env : Env) (wf : Nat) (s : St) :
    xferBytesOf (waitForModeReady env wf s).trace = xferBytesOf s.trace := by
  unfold waitForModeReady
  rw [xfb_pollLoop]
  rfl

lemma xfb_waitForPacketSent (env : Env) (wf : Nat) (s : St) :
    xferBytesOf (waitForPacketSent env wf s).trace = xferBytesOf s.trace := by
  unfold waitForPacketSent
  rw [xfb_pollLoop]
  rfl

lemma xfb_readRSSI (env : Env) (s : St) :
    xferBytesOf (readRSSI env s).2.trace = xferBytesOf s.trace := by
  unfold readRSSI
  rcases hr : readRegister env 0x24 s with ⟨v, s1⟩
  have := xfb_readRegister env 0x24 s
  rw [hr] at this
  exact this

lemma xfb_drainLoop (env : Env) :
    ∀ room s, xferBytesOf (drainLoop env room s).2.trace = xferBytesOf s.trace := by
  intro room
  induction room with
  | zero => intro s; exact xfb_readRegister env 0x28 s
  | succ n ih =>
    intro s
    unfold drainLoop
    dsimp only
    split
    · exact xfb_readRegister env 0x28 s
    · rw [ih, xfb_readRegister, xfb_readRegister]

lemma xfb_ite (c : Prop) [Decidable c] (a b : St) :
    xferBytesOf (if c then a else b).trace =
      if c then xferBytesOf a.trace else xferBytesOf b.trace := by
  split <;> rfl

lemma xfb_recvI (env : Env) (wf dataLength : Nat) (s : St) :
    xferBytesOf (recvI env wf dataLength s).2.trace = xferBytesOf s.trace := by
  unfold recvI
  dsimp only
  split <;> split <;>
    simp only [xfb_ite, xfb_writeRegister, xfb_readRegister, xfb_setMode, xfb_readRSSI,
      xfb_drainLoop, xfb_waitForModeReady, ite_self]

lemma xfb_getRand (env : Env) (s : St) :
    xferBytesOf (getRand env s).2.trace = xferBytesOf s.trace := rfl

lemma xfb_channelFree (env : Env) (s : St) :
    xferBytesOf (channelFree env s).2.trace = xferBytesOf s.trace := by
  unfold channelFree
  dsimp only
  exact xfb_readRSSI env s

lemma xfb_csmaBody (env : Env) (wf : Nat) (s : St) :
    xferBytesOf (csmaBody env wf s).trace = xferBytesOf s.trace := by
  unfold csmaBody
  dsimp only
  split
  · simp only [xfb_pollLoop, xfb_getTick, xfb_writeRegister, xfb_readRegister]
    rw [xfb_recvI, xfb_delayA]
    rfl
  · rw [xfb_recvI, xfb_delayA]
    rfl

lemma xfb_csmaLoop (env : Env) (wf t0 : Nat) :
    ∀ fuel s, xferBytesOf (csmaLoop env wf t0 fuel s).1.trace = xferBytesOf s.trace := by
  intro fuel
  induction fuel with
  | zero => intro s; rfl
  | succ n ih =>
    intro s
    unfold csmaLoop
    dsimp only
    split
    · exact xfb_channelFree env s
    · split
      · rw [ih, xfb_csmaBody, xfb_getTick, xfb_channelFree]
      · rw [xfb_getTick, xfb_channelFree]

lemma xfb_csmaPart (env : Env) (wf fuel : Nat) (s : St) :
    xferBytesOf (csmaPart env wf fuel s).trace = xferBytesOf s.trace := by
  unfold csmaPart
  dsimp only
  rw [xfb_setMode, xfb_csmaLoop, xfb_pollLoop, xfb_getTick, xfb_setMode, xfb_writeRegister,
    xfb_readRegister]

lemma xfb_clearFIFO (s : St) :
    xferBytesOf (clearFIFO s).trace = xferBytesOf s.trace :=
  xfb_writeRegister 0x28 0x10 s

lemma xfb_xferB (v : Nat) (s : St) :
    xferBytesOf (xferB v s).trace = xferBytesOf s.trace ++ [v % 256] := by
  simp [xferB, xferBytesOf_append, xferBytesOf]

lemma xfb_map_xferByte (f : Nat → Nat) (l : List Nat) :
    xferBytesOf (l.map (fun i => Event.xferByte (f i))) = l.map f := by
  induction l with
  | nil => rfl
  | cons a t ih => simp [xferBytesOf, ih]; simpa [xferBytesOf] using ih

/-- State asleep with an empty trace, as left by `sleep()` after construction. -/
def st5 : St := { mkSt with mode := 0 }

/-- C4 (counterexample): a zero-length `send` from sleep returns 0 but still
performs bus activity — the trace grows by the FIFO-clear register write, so
"no register write occurs" is false. -/
theorem send_zero_cex :
    (send env0 1 1 (fun _ => 0) 0 st5).1 = 0
    ∧ (send env0 1 1 (fun _ => 0) 0 st5).2.trace ≠ [] := by
  constructor
  · rfl
  · decide

/-- C4 (amended): `send` clamps the payload length to 64 and returns the
post-clamp count; a zero-length payload returns 0 and transfers no FIFO byte
(although the standby/mode-ready register accesses and the FIFO-clear register
write still happen); a non-empty payload bursts exactly the address byte, the
clamped length and the clamped payload bytes into the FIFO. -/
theorem send_clamps (env : Env) (wf fuel : Nat) (data : Nat → Nat) (dataLength : Nat)
    (s : St) :
    (send env wf fuel data dataLength s).1 = (if 64 < dataLength then 64 else dataLength)
    ∧ ((if 64 < dataLength then 64 else dataLength) = 0 →
        xferBytesOf (send env wf fuel data dataLength s).2.trace = xferBytesOf s.trace)
    ∧ ((if 64 < dataLength then 64 else dataLength) ≠ 0 →
        xferBytesOf (send env wf fuel data dataLength s).2.trace =
          xferBytesOf s.trace ++
            0x80 :: (if 64 < dataLength then 64 else dataLength) ::
              (List.range (if 64 < dataLength then 64 else dataLength)).map
                (fun i => data i % 256)) := by
  by_cases h64 : 64 < dataLength
  · simp only [h64, if_true]
    refine ⟨?_, ?_, ?_⟩
    · unfold send
      simp only [h64, if_true]
      rfl
    · intro h; cases h
    · intro h
      unfold send
      dsimp only
      simp only [h64, if_true, if_neg (show ¬(64 = 0) by omega)]
      rw [xfb_setMode, xfb_waitForPacketSent, xfb_setMode]
      simp only [xferBytesOf_append, xfb_map_xferByte, xfb_xferB, xfb_ite, xfb_csmaPart,
        ite_self, xfb_clearFIFO, xfb_waitForModeReady, xfb_setMode]
      norm_num [List.append_assoc]
  · simp only [h64, if_false]
    by_cases h0 : dataLength = 0
    · subst h0
      refine ⟨?_, ?_, ?_⟩
      · rfl
      · intro _
        unfold send
        norm_num
        simp only [xfb_clearFIFO, xfb_ite, xfb_waitForModeReady, xfb_setMode, ite_self]
      · intro h; exact absurd rfl h
    · refine ⟨?_, ?_, ?_⟩
      · unfold send
        simp only [h64, if_false, if_neg h0]
      · intro h; exact absurd h h0
      · intro _
        unfold send
        dsimp only
        simp only [h64, if_false, if_neg h0]
        rw [xfb_setMode, xfb_waitForPacketSent, xfb_setMode]
        simp only [xferBytesOf_append, xfb_map_xferByte, xfb_xferB, xfb_ite, xfb_csmaPart,
          ite_self, xfb_clearFIFO, xfb_waitForModeReady, xfb_setMode]
        rw [Nat.mod_eq_of_lt (by omega : dataLength < 256)]
        simp [List.append_assoc]

/-- The 5-bit OutputPower field carried by one event, when the event is a
write to RegPaLevel (a write command has address byte 0x11 | 0x80 = 0x91). -/
def powerFieldOf : Event → Option Nat
  | Event.xfer2 cmd => if cmd >>> 8 = 0x91 then some ((cmd &&& 0xFF) &&& 0x1F) else none
  | _ => none

/-- The 5-bit OutputPower field value of the last write to RegPaLevel (0x11)
in a trace, if any. -/
def lastPowerWrite (t : List Event) : Option Nat :=
  t.reverse.findSome? powerFieldOf

/-- The documented invariant: `_powerLevel` equals the power-level register
value last applied to the chip (no 0x11 write yet counts as holding). -/
def powerInv (s : St) : Bool :=
  match lastPowerWrite s.trace with
  | some v => s.powerLevel == v
  | none => true

lemma lastPowerWrite_append (xs ys : List Event) :
    lastPowerWrite (xs ++ ys) = (lastPowerWrite ys).or (lastPowerWrite xs) := by
  unfold lastPowerWrite
  rw [List.reverse_append, List.findSome?_append]

lemma lastPowerWrite_snoc_write (t : List Event) (v : Nat) :
    lastPowerWrite (t ++ [Event.xfer2 (wcmd 0x11 v)]) = some (v &&& 31) := by
  have hs : wcmd 0x11 v >>> 8 = 0x91 := by rw [wcmd_shiftRight]; decide
  have h31 : (255 : Nat) &&& 31 = 31 := by decide
  rw [lastPowerWrite_append]
  simp [lastPowerWrite, powerFieldOf, hs, wcmd_lowbyte, Nat.and_assoc, h31]

/-- C9 (counterexample): on the fresh state the invariant holds, but a single
`setPowerDBm(13)` call writes power level 31 to the chip while leaving the
stored `_powerLevel` at 0, breaking the invariant. -/
theorem powerInv_cex :
    powerInv mkSt = true ∧ powerInv (setPowerDBm 13 mkSt).2 = false := by
  constructor
  · rfl
  · decide

/-- C9 (amended): `setPowerLevel` maintains the invariant (it stores exactly
the 5-bit field it writes), but `setPowerDBm` does not: it never updates the
stored `_powerLevel` even though it writes the power-level register. -/
theorem powerInv_preservation (env : Env) (power : Nat) (dBm : Int) (s : St) :
    (powerInv s = true → powerInv (setPowerLevel env power s) = true)
    ∧ (setPowerDBm dBm s).2.powerLevel = s.powerLevel := by
  constructor
  · intro _
    have hp : (if 31 < power then 31 else power) < 32 := by split <;> omega
    unfold setPowerLevel powerInv
    simp only [readRegister, writeRegister]
    norm_num
    rw [show s.trace ++ [Event.xfer2 (rcmd 0x11),
          Event.xfer2 (wcmd 0x11 ((env.reads s.readIdx % 256 &&& 0xE0) |||
            (if 31 < power then 31 else power)))] =
        (s.trace ++ [Event.xfer2 (rcmd 0x11)]) ++
          [Event.xfer2 (wcmd 0x11 ((env.reads s.readIdx % 256 &&& 0xE0) |||
            (if 31 < power then 31 else power)))] from by simp,
      lastPowerWrite_snoc_write, low5 _ _ hp]
    simp
  · unfold setPowerDBm
    repeat' split
    all_goals rfl

/-- Witness for `powerInv_preservation`: `setPowerLevel(20)` from the fresh
state keeps the invariant, and `setPowerDBm(13)` leaves `_powerLevel` at 0. -/
theorem powerInv_preservation_witness :
    powerInv (setPowerLevel env0 20 mkSt) = true
    ∧ (setPowerDBm 13 mkSt).2.powerLevel = mkSt.powerLevel :=
  ⟨(powerInv_preservation env0 20 13 mkSt).1 (by decide),
   (powerInv_preservation env0 20 13 mkSt).2⟩

lemma tick_readRegister (env : Env) (reg : Nat) (s : St) :
    (readRegister env reg s).2.tickIdx = s.tickIdx := by
  unfold readRegister
  split <;> rfl

lemma tick_writeRegister (reg val : Nat) (s : St) :
    (writeRegister reg val s).tickIdx = s.tickIdx := by
  unfold writeRegister
  split <;> rfl

lemma tick_setHighPowerSettings (enable : Bool) (s : St) :
    (setHighPowerSettings enable s).tickIdx = s.tickIdx := by
  unfold setHighPowerSettings
  rw [tick_writeRegister, tick_writeRegister]

lemma tick_setMode (mode : Nat) (s : St) :
    (setMode mode s).2.tickIdx = s.tickIdx := by
  unfold setMode
  split
  · rfl
  · dsimp only
    split
    · split
      · split
        · rw [tick_setHighPowerSettings, tick_writeRegister]
        · rw [tick_writeRegister]
      · split
        · split
          · rw [tick_setHighPowerSettings, tick_writeRegister]
          · rw [tick_writeRegister]
        · rw [tick_writeRegister]
    · rw [tick_writeRegister]

lemma tick_getTick (env : Env) (s : St) :
    (getTick env s).2.tickIdx = s.tickIdx + 1 := rfl

lemma tick_getRand (env : Env) (s : St) :
    (getRand env s).2.tickIdx = s.tickIdx := rfl

lemma tick_delayA (ms : Nat) (s : St) :
    (delayA ms s).tickIdx = s.tickIdx := rfl

lemma tick_readRSSI (env : Env) (s : St) :
    (readRSSI env s).2.tickIdx = s.tickIdx := by
  unfold readRSSI
  dsimp only
  rw [tick_readRegister]

lemma tick_channelFree (env : Env) (s : St) :
    (channelFree env s).2.tickIdx = s.tickIdx := by
  unfold channelFree
  dsimp only
  rw [tick_readRSSI]

lemma tick_drainLoop (env : Env) :
    ∀ room s, (drainLoop env room s).2.tickIdx = s.tickIdx := by
  intro room
  induction room with
  | zero => intro s; exact tick_readRegister env 0x28 s
  | succ n ih =>
    intro s
    unfold drainLoop
    dsimp only
    split
    · exact tick_readRegister env 0x28 s
    · rw [ih, tick_readRegister, tick_readRegister]

lemma tick_le_pollLoop (env : Env) (reg mask timeout t0 : Nat) :
    ∀ fuel s, s.tickIdx ≤ (pollLoop env reg mask timeout t0 fuel s).tickIdx := by
  intro fuel
  induction fuel with
  | zero => intro s; exact le_refl _
  | succ n ih =>
    intro s
    unfold pollLoop
    dsimp only
    have h1 := tick_readRegister env reg s
    have h2 := tick_getTick env (readRegister env reg s).2
    split
    · omega
    · split
      · have h3 := ih (getTick env (readRegister env reg s).2).2
        omega
      · omega

lemma tick_le_waitForModeReady (env : Env) (wf : Nat) (s : St) :
    s.tickIdx ≤ (waitForModeReady env wf s).tickIdx := by
  unfold waitForModeReady
  dsimp only
  have h1 := tick_getTick env s
  have h2 := tick_le_pollLoop env 0x27 0x80 100 (getTick env s).1 wf (getTick env s).2
  omega

lemma tick_le_recvI (env : Env) (wf dataLength : Nat) (s : St) :
    s.tickIdx ≤ (recvI env wf dataLength s).2.tickIdx := by
  unfold recvI
  dsimp only
  split <;> split
  · simp only [tick_writeRegister, tick_readRegister, tick_setMode, tick_drainLoop]
    rw [show ∀ x : St, (if x.autoReadRSSI = true then (readRSSI env x).2 else x).tickIdx = x.tickIdx
        from fun x => by split <;> simp [tick_readRSSI]]
    simp only [tick_setMode, tick_readRegister, tick_drainLoop]
    have := tick_le_waitForModeReady env wf (setMode 4 s).2
    have := tick_setMode 4 s
    omega
  · simp only [tick_readRegister]
    have := tick_le_waitForModeReady env wf (setMode 4 s).2
    have := tick_setMode 4 s
    omega
  · simp only [tick_writeRegister, tick_readRegister, tick_setMode, tick_drainLoop]
    rw [show ∀ x : St, (if x.autoReadRSSI = true then (readRSSI env x).2 else x).tickIdx = x.tickIdx
        from fun x => by split <;> simp [tick_readRSSI]]
    simp only [tick_setMode, tick_readRegister, tick_drainLoop]
    omega
  · simp only [tick_readRegister]
    omega

/-- The body of the CSMA wait loop only moves the clock cursor forward. -/
lemma tick_le_csmaBody (env : Env) (wf : Nat) (s : St) :
    s.tickIdx ≤ (csmaBody env wf s).tickIdx := by
  unfold csmaBody
  dsimp only
  have h1 := tick_getRand env s
  have h2 := tick_delayA ((getRand env s).1 % 10) (getRand env s).2
  have h3 := tick_le_recvI env wf 64 (delayA ((getRand env s).1 % 10) (getRand env s).2)
  split
  · refine le_trans ?_ (tick_le_pollLoop env 0x23 0x02 10 _ wf _)
    simp only [tick_getTick, tick_writeRegister, tick_readRegister]
    omega
  · omega

/-- Under a strictly advancing clock the CSMA wait loop never exhausts its
fuel once the fuel covers the 500 ms ceiling: every iteration consumes at
least one clock tick, so the elapsed-time bound forces an exit. -/
lemma csmaLoop_no_fuelOut (env : Env) (wf t0 : Nat)
    (hm : ∀ n, env.ticks n < env.ticks (n + 1)) :
    ∀ fuel s, t0 ≤ env.ticks s.tickIdx →
      500 - (env.ticks s.tickIdx - t0) + 1 ≤ fuel →
      (csmaLoop env wf t0 fuel s).2 ≠ CsmaExit.fuelOut := by
  have mono : StrictMono env.ticks := strictMono_nat_of_lt_succ hm
  intro fuel
  induction fuel with
  | zero => intro s h0 hf; omega
  | succ n ih =>
    intro s h0 hf
    unfold csmaLoop
    dsimp only
    split
    · simp
    · split
      · rename_i hcfree hc
        have hcv : (getTick env (channelFree env s).2).1 = env.ticks s.tickIdx := by
          show env.ticks (channelFree env s).2.tickIdx = env.ticks s.tickIdx
          rw [tick_channelFree]
        rw [hcv] at hc
        have hidx : s.tickIdx + 1 ≤
            (csmaBody env wf (getTick env (channelFree env s).2).2).tickIdx := by
          have h1 := tick_le_csmaBody env wf (getTick env (channelFree env s).2).2
          have h2 := tick_getTick env (channelFree env s).2
          have h3 := tick_channelFree env s
          omega
        apply ih
        · calc t0 ≤ env.ticks s.tickIdx := h0
            _ ≤ env.ticks (csmaBody env wf (getTick env (channelFree env s).2).2).tickIdx :=
              mono.monotone (by omega)
        · have h1 : env.ticks s.tickIdx < env.ticks (s.tickIdx + 1) := hm s.tickIdx
          have h2 : env.ticks (s.tickIdx + 1) ≤
              env.ticks (csmaBody env wf (getTick env (channelFree env s).2).2).tickIdx :=
            mono.monotone hidx
          omega
      · simp

lemma setMode_one_mode (s : St) : (setMode 1 s).2.mode = 1 := by
  unfold setMode
  split
  · rename_i h
    rcases h with h | h
    · exact h.symm
    · omega
  · rfl

lemma csmaPart_mode (env : Env) (wf fuel : Nat) (s : St) :
    (csmaPart env wf fuel s).mode = 1 := by
  unfold csmaPart
  exact setMode_one_mode _

lemma send_result (env : Env) (wf fuel : Nat) (data : Nat → Nat) (dataLength : Nat)
    (s : St) :
    (send env wf fuel data dataLength s).1 = (if 64 < dataLength then 64 else dataLength) := by
  unfold send
  dsimp only
  split
  · split
    · rename_i h
      exact absurd h (by decide)
    · rfl
  · split
    · rename_i h
      exact h.symm
    · rfl

/-- C8: under any simulated channel and any strictly advancing clock, the
CSMA/CA wait loop in `send` exits — never by running out of iterations — with
ghost reason `free` or `timeout` (channel reported free, or the 500 ms ceiling
elapsed); the arbiter then leaves the device in standby, and `send` proceeds
to return the clamped byte count, never an error, identically for both exit
reasons. -/
theorem csma_terminates (env : Env) (wf t0 fuel : Nat) (s : St) (data : Nat → Nat)
    (len : Nat)
    (hm : ∀ n, env.ticks n < env.ticks (n + 1))
    (h0 : t0 ≤ env.ticks s.tickIdx)
    (hf : 501 ≤ fuel) :
    ((csmaLoop env wf t0 fuel s).2 = CsmaExit.free ∨
      (csmaLoop env wf t0 fuel s).2 = CsmaExit.timeout)
    ∧ (csmaPart env wf fuel s).mode = 1
    ∧ (send env wf fuel data len s).1 = (if 64 < len then 64 else len) := by
  refine ⟨?_, csmaPart_mode env wf fuel s, send_result env wf fuel data len s⟩
  have h := csmaLoop_no_fuelOut env wf t0 hm fuel s h0 (by omega)
  cases hr : (csmaLoop env wf t0 fuel s).2 with
  | free => exact Or.inl rfl
  | timeout => exact Or.inr rfl
  | fuelOut => exact absurd hr h

/-- Witness for `csma_terminates`: a channel that always reports 0 dBm (above
the -85 dBm threshold, i.e. permanently busy) and a clock gaining 1000 per
call still let the loop exit within the 501-iteration bound. -/
theorem csma_terminates_witness :
    ((csmaLoop env0 1 0 501 mkSt).2 = CsmaExit.free ∨
      (csmaLoop env0 1 0 501 mkSt).2 = CsmaExit.timeout)
    ∧ (csmaPart env0 1 501 mkSt).mode = 1
    ∧ (send env0 1 501 (fun _ => 0) 65 mkSt).1 = (if 64 < 65 then 64 else 65) :=
  csma_terminates env0 1 0 501 mkSt (fun _ => 0) 65
    (fun n => (by omega : 1000 * n < 1000 * (n + 1)))
    (Nat.zero_le _) (by decide)

end RFM69
